import Mathlib

/-!
# Verification of the Gemini caching proxy server (`main.go`)

This file shallowly embeds the request-orchestration core of the proxy
server: the Go path-confinement helpers used by the tool executor
(`toolListFiles`, `toolReadFile`, `toolWriteFile`), the cache-eligibility
decision of `handleChat`, the tool-resolution loops of `handleChat` and
`handleOpenAIChat`, the response finalization, the OpenAI model-name
mapping, and `calculateCost`.  String manipulation is embedded at the
character-list level with structural recursion so that every definition
evaluates inside the kernel.
-/

/-- Character list abbreviation; Go strings are modelled by their rune
sequences (all inputs of interest are ASCII, where runes = bytes). -/
abbrev Chars := List Char

/-- Model of the `strings.HasPrefix`-style prefix test on character lists:
`isPre p s` is true iff `p` is a prefix of `s`. -/
def isPre : Chars → Chars → Bool
  | [], _ => true
  | _ :: _, [] => false
  | a :: as, b :: bs => a == b && isPre as bs

/-- Model of `strings.Contains s sub`: some contiguous run of `s` equals `sub`. -/
def containsSeq (s sub : Chars) : Bool :=
  if isPre sub s then true
  else
    match s with
    | [] => false
    | _ :: t => containsSeq t sub

/-- Go `strings.HasPrefix(s, pre)`. -/
def goHasPre (s pre : String) : Bool := isPre pre.data s.data

/-- Go `strings.Contains(s, sub)`. -/
def goContains (s sub : String) : Bool := containsSeq s.data sub.data

/-- Splitting a character list on `/`, accumulating the current segment in
reverse; mirrors `strings.Split(s, "/")` as used by path cleaning. -/
def splitSlashAux : Chars → Chars → List Chars
  | cur, [] => [cur.reverse]
  | cur, c :: rest =>
    if c == '/' then cur.reverse :: splitSlashAux [] rest
    else splitSlashAux (c :: cur) rest

/-- The segment-stack processing of Go `path/filepath.Clean` (unix):
drop empty and `.` segments; `..` pops a previous segment, is dropped at
the root of a rooted path, and accumulates at the front of a relative
path. -/
def cleanSegsAux (rooted : Bool) : List Chars → List Chars → List Chars
  | stack, [] => stack.reverse
  | stack, seg :: rest =>
    if seg.isEmpty || seg == ['.'] then cleanSegsAux rooted stack rest
    else if seg == ['.', '.'] then
      match stack with
      | [] =>
        if rooted then cleanSegsAux rooted [] rest
        else cleanSegsAux rooted [['.', '.']] rest
      | top :: stack2 =>
        if top == ['.', '.'] then cleanSegsAux rooted (seg :: stack) rest
        else cleanSegsAux rooted stack2 rest
    else cleanSegsAux rooted (seg :: stack) rest

/-- Joining cleaned segments with `/`. -/
def joinSegs : List Chars → Chars
  | [] => []
  | [s] => s
  | s :: rest => s ++ '/' :: joinSegs rest

/-- Go `filepath.Clean` (unix separator), on character lists. -/
def cleanChars (p : Chars) : Chars :=
  if p.isEmpty then ['.']
  else
    let rooted := isPre ['/'] p
    let segs := cleanSegsAux rooted [] (splitSlashAux [] p)
    if rooted then '/' :: joinSegs segs
    else if segs.isEmpty then ['.'] else joinSegs segs

/-- Go `filepath.Clean` on strings. -/
def goClean (p : String) : String := String.mk (cleanChars p.data)

/-- Go `filepath.Join(a, b)` (unix): empty elements are ignored, the rest
are joined with `/` and cleaned. -/
def goJoin (a b : String) : String :=
  if a.data.isEmpty then (if b.data.isEmpty then "" else goClean b)
  else if b.data.isEmpty then goClean a
  else String.mk (cleanChars (a.data ++ '/' :: b.data))


/-! ## Tool executor (`toolListFiles`, `toolReadFile`, `toolWriteFile`) -/

/-- Structured tool results, a tagged view of the `map[string]any` values
returned by the Go tool functions.  `denied` is the
`"Access denied: outside project root"` error, `tooLarge` the
`"File too large"` error, `osError` carries an `err.Error()` message of an
underlying OS failure. -/
inductive ToolResult where
  | denied
  | osError (msg : String)
  | tooLarge
  | files (names : List String)
  | content (text : String)
  | written (path : String) (bytesWritten : Nat)
deriving DecidableEq

/-- A filesystem snapshot.  `files` maps an absolute path to the
`os.Stat` size and the `os.ReadFile` content (the two are separate
syscalls in the source, so the model keeps them as separate oracle data);
`dirs` maps an absolute path to its `os.ReadDir` entries, each a name
paired with its is-directory flag. -/
structure FS where
  files : List (String × Nat × String)
  dirs : List (String × List (String × Bool))
deriving DecidableEq

/-- Stat/read oracle for a file path. -/
def FS.findFile (fs : FS) (p : String) : Option (Nat × String) :=
  fs.files.lookup p

/-- ReadDir oracle for a directory path. -/
def FS.findDir (fs : FS) (p : String) : Option (List (String × Bool)) :=
  fs.dirs.lookup p

/-- The shared path resolution of all three tool functions:
`filepath.Join(projectRoot, filepath.Clean(relPath))`. -/
def resolveToolPath (projectRoot relPath : String) : String :=
  goJoin projectRoot (goClean relPath)

/-- Embedding of `toolListFiles` from `main.go`: empty path defaults to `"."`, the
resolved path must keep `projectRoot` as a string prefix, then the
directory entries are listed with a `/` appended to directory names. -/
def toolListFiles (fs : FS) (projectRoot relPath : String) : ToolResult :=
  let relPath2 := if relPath = "" then "." else relPath
  let cleanPath := resolveToolPath projectRoot relPath2
  if !(goHasPre cleanPath projectRoot) then .denied
  else
    match fs.findDir cleanPath with
    | none => .osError "no such file or directory"
    | some entries =>
      .files (entries.map (fun e => if e.2 then e.1 ++ "/" else e.1))

/-- Embedding of `toolReadFile` from `main.go`: after the confinement check, `os.Stat`
failure is returned as its error message, a stat size above `1000000`
bytes is `"File too large"`, otherwise the content is returned.  A path
that names a directory stats fine but fails on `os.ReadFile`. -/
def toolReadFile (fs : FS) (projectRoot relPath : String) : ToolResult :=
  let cleanPath := resolveToolPath projectRoot relPath
  if !(goHasPre cleanPath projectRoot) then .denied
  else
    match fs.findFile cleanPath with
    | some fc =>
      if fc.1 > 1000000 then .tooLarge
      else .content fc.2
    | none =>
      match fs.findDir cleanPath with
      | some _ => .osError "is a directory"
      | none => .osError "no such file or directory"

/-- Embedding of `toolWriteFile` from `main.go`: after the confinement check the file
is created/overwritten (parent directories are created; OS write failures
are not modelled) and the result reports the original relative path and
`len(content)` bytes written. -/
def toolWriteFile (fs : FS) (projectRoot relPath content : String) :
    ToolResult × FS :=
  let cleanPath := resolveToolPath projectRoot relPath
  if !(goHasPre cleanPath projectRoot) then (.denied, fs)
  else
    (.written relPath content.utf8ByteSize,
     { fs with files := (cleanPath, content.utf8ByteSize, content) :: fs.files })

/-! ## Cache eligibility (`handleChat`) -/

/-- Go `strings.HasSuffix` on character lists. -/
def endsWithSeq (s suffix : Chars) : Bool := isPre suffix.reverse s.reverse

/-- Go `strings.TrimSuffix(s, suffix)`. -/
def goTrimSuffix (s suffix : String) : String :=
  if endsWithSeq s.data suffix.data then
    String.mk ((s.data.reverse.drop suffix.data.length).reverse)
  else s

/-- The `activeCID` computation of `handleChat`: an explicit `cache_id`
override wins; otherwise the server cache is selected only when a cache
exists, the requested model does not contain `"image"`, and the requested
model extends the cache model with its `"-001"` suffix stripped. -/
def decideActiveCID (reqCacheID reqModel cacheNm cacheMdl : String) : String :=
  if reqCacheID ≠ "" then reqCacheID
  else if cacheNm ≠ "" then
    let isImageModel := goContains reqModel "image"
    let isDifferentFamily := !(goHasPre reqModel (goTrimSuffix cacheMdl "-001"))
    if !isImageModel && !isDifferentFamily then cacheNm else ""
  else ""

/-- The attachment decision of `handleChat`: `config.CachedContent` is set
to `activeCID` only when it is nonempty and neither `use_agentic` nor
`use_search` is requested; otherwise no cache reference accompanies the
upstream call. -/
def attachedCache (reqCacheID reqModel cacheNm cacheMdl : String)
    (useSearch useAgentic : Bool) : Option String :=
  let activeCID := decideActiveCID reqCacheID reqModel cacheNm cacheMdl
  if activeCID ≠ "" && !useAgentic && !useSearch then some activeCID else none

/-! ## Turn loops (`handleChat`, `handleOpenAIChat`) -/

/-- One upstream model response as the loops observe it: whether
`len(res.Candidates) > 0 && res.Candidates[0].Content != nil`, the names
of the requested function calls, the text, and the number of inline-data
(image) parts. -/
structure GResp where
  hasContent : Bool
  funcCalls : List String
  text : String
  images : Nat
deriving DecidableEq

/-- Terminal outcomes of the `handleChat` tool loop: a final text/image
response, the degraded `"Error after tool execution: …"` break, or the
break on a response without candidates/content. -/
inductive LoopEnd where
  | finished (text : String) (toolCount : Nat) (images : Nat)
  | errAfterTools (msg : String) (toolCount : Nat)
  | noContent (toolCount : Nat)
deriving DecidableEq

/-- The `for { … }` tool-resolution loop of `handleChat`, fuel-indexed
because the source imposes no bound of its own: `none` means the loop is
still running after `fuel` iterations.  `script k` is the upstream reply
to the `k`-th tool-result submission (`SendMessage` may fail); `res` is
the response currently being examined, `toolCount` the accumulated
`toolLogs` length. -/
def chatLoop (script : Nat → Except String GResp) :
    Nat → GResp → Nat → Nat → Option LoopEnd
  | 0, _, _, _ => none
  | fuel + 1, res, k, toolCount =>
    if !res.hasContent then some (.noContent toolCount)
    else if res.funcCalls.isEmpty then
      some (.finished res.text toolCount res.images)
    else
      match script k with
      | .error e =>
        some (.errAfterTools ("Error after tool execution: " ++ e)
          (toolCount + res.funcCalls.length))
      | .ok res2 => chatLoop script fuel res2 (k + 1) (toolCount + res.funcCalls.length)

/-- The tool loop of `handleOpenAIChat` (lines 634–674), fuel-indexed the
same way.  On a response with no function calls the adapter takes
`res.Text()` verbatim as the message content; a failed resubmission
yields the degraded error text.  There is no empty-content
substitution on this path. -/
def openAIChatLoop (script : Nat → Except String GResp) :
    Nat → GResp → Nat → Option String
  | 0, _, _ => none
  | fuel + 1, res, k =>
    if res.funcCalls.isEmpty then some res.text
    else
      match script k with
      | .error e => some ("Error after tool execution: " ++ e)
      | .ok res2 => openAIChatLoop script fuel res2 (k + 1)

/-- A scripted upstream that requests a tool call on every response. -/
def pingPongResp : GResp := ⟨true, ["write_file"], "", 0⟩

/-- The script form of `pingPongResp`: every resubmission succeeds and
requests another function call. -/
def pingPongScript : Nat → Except String GResp := fun _ => .ok pingPongResp

/-! ## Response finalization (`handleChat` lines 1391–1399) -/

/-- ASCII whitespace (the subset of `unicode.IsSpace` the model needs). -/
def isSpaceChar (c : Char) : Bool :=
  c == ' ' || c == '\t' || c == '\n' || c == '\r'

/-- Go `strings.TrimSpace` (over ASCII whitespace). -/
def goTrimSpace (s : String) : String :=
  String.mk (((s.data.dropWhile isSpaceChar).reverse.dropWhile isSpaceChar).reverse)

/-- Decimal digits of `n`, fuel-indexed so the recursion is structural. -/
def natDigitsAux : Nat → Nat → Chars
  | 0, _ => []
  | fuel + 1, n =>
    if n < 10 then [Char.ofNat (48 + n)]
    else natDigitsAux fuel (n / 10) ++ [Char.ofNat (48 + n % 10)]

/-- Decimal rendering of a natural number (Go `%d`). -/
def natToDec (n : Nat) : String := String.mk (natDigitsAux (n + 1) n)

/-- The sentinel returned when the model produced nothing at all. -/
def sentinelEmpty : String :=
  "[System Warning: Model returned empty content. This may be a safety block or API glitch.]"

/-- The final-response normalization of `handleChat`: trim the text, then
substitute the sentinel warning (nothing at all), a tool-count summary
(tools ran but no text), or an image-count summary (images but no
text). -/
def finalizeChatText (finalResponse : String) (toolCount images : Nat) : String :=
  let f := goTrimSpace finalResponse
  if f = "" ∧ toolCount = 0 ∧ images = 0 then sentinelEmpty
  else if f = "" ∧ toolCount > 0 then
    "[Executed " ++ natToDec toolCount ++ " tool(s) but model provided no summary.]"
  else if f = "" ∧ images > 0 then
    "[Generated " ++ natToDec images ++ " image(s)]"
  else f

/-! ## OpenAI adapter model mapping (`handleOpenAIChat`, `handleOpenAIStream`) -/

/-- The configured default model (`DefaultModel` in `main.go`). -/
def defaultModelID : String := "gemini-2.0-flash"

/-- The experimental blocklist test applied to `gemini-` model ids by both
OpenAI-compatible handlers. -/
def isBlockedExperimental (m : String) : Bool :=
  goContains m "-exp" || goContains m "experimental" ||
  goContains m "2.0-flash-exp" || goContains m "2.0-pro-exp"

/-- Outcome of the model-id mapping: either the request is rejected
(HTTP 400 `"Experimental models are not allowed"`, or the equivalent
stream error) or some model id is used for the upstream call. -/
inductive MappedModel where
  | rejected
  | use (m : String)
deriving DecidableEq

/-- The model mapping of `handleOpenAIChat`/`handleOpenAIStream`:
`gemini-`-prefixed ids pass verbatim unless blocked as experimental, in
which case the request is rejected; any other id is replaced by the
cache-bound model, or the default when no cache model is set. -/
def mapOpenAIModel (reqModel cacheMdl : String) : MappedModel :=
  if goHasPre reqModel "gemini-" then
    if isBlockedExperimental reqModel then .rejected
    else .use reqModel
  else .use (if cacheMdl = "" then defaultModelID else cacheMdl)

/-! ## Cost accounting (`calculateCost`) -/

/-- The usage metadata a response may carry. -/
structure Usage where
  promptTokenCount : Nat
  candidatesTokenCount : Nat
deriving DecidableEq

/-- The `modelCosts` price table of `main.go`, in source-literal order,
with the decimal per-million rates as exact rationals (`mkRat n d` is
`n / d`; e.g. `0.075` is `mkRat 75 1000`). -/
def modelCosts : List (String × ℚ × ℚ) :=
  [("gemini-1.5-flash", mkRat 75 1000, mkRat 30 100),
   ("gemini-1.5-flash-8b", mkRat 375 10000, mkRat 15 100),
   ("gemini-1.5-pro", mkRat 125 100, 5),
   ("gemini-2.0-flash", mkRat 10 100, mkRat 40 100),
   ("gemini-2.0-flash-exp", 0, 0),
   ("gemini-2.0-flash-lite-preview-02-05", mkRat 75 1000, mkRat 30 100),
   ("gemini-exp-1206", 0, 0),
   ("gemini-2.0-pro-exp-02-05", 0, 0)]

/-- The `for modelKey, r := range modelCosts` search: the first key of the
enumeration that equals the model name or is a prefix of it supplies the
rates.  Go map iteration order is unspecified, so the enumeration `order`
is a parameter; any permutation of `modelCosts` is a possible order. -/
def findRates (order : List (String × ℚ × ℚ)) (modelName : String) :
    Option (ℚ × ℚ) :=
  match order with
  | [] => none
  | (k, r) :: rest =>
    if modelName = k || goHasPre modelName k then some r
    else findRates rest modelName

/-- The token-cost formula of `calculateCost`: zero without usage
metadata, otherwise tokens/1e6 times the per-million rates. -/
def usageCost (r : ℚ × ℚ) (usage : Option Usage) : ℚ :=
  match usage with
  | none => 0
  | some u =>
    ((u.promptTokenCount : ℚ) / 1000000) * r.1 +
    ((u.candidatesTokenCount : ℚ) / 1000000) * r.2

/-- Embedding of `calculateCost` from `main.go`, over exact rationals: zero when no key
matches or when the matched rates are both zero, otherwise the usage-cost
formula (itself zero when the response has no usage metadata). -/
def calculateCost (order : List (String × ℚ × ℚ)) (modelName : String)
    (usage : Option Usage) : ℚ :=
  match findRates order modelName with
  | none => 0
  | some r =>
    if r.1 = 0 ∧ r.2 = 0 then 0
    else usageCost r usage

/-! ## Native request normalization (`handleChat` defaults) -/

/-- The wire request of the native `/chat` adapter. -/
structure ChatRequest where
  sessionID : String
  model : String
  message : String
  cacheID : String
  useSearch : Bool
  useAgentic : Bool
deriving DecidableEq

/-- The defaulting `handleChat` applies before calling upstream: empty
model becomes the default model, empty session id becomes `"default"`,
and an empty message is replaced by `"Hello"` just before sending. -/
def normalizeChatRequest (r : ChatRequest) : ChatRequest :=
  { r with
    model := if r.model = "" then defaultModelID else r.model
    sessionID := if r.sessionID = "" then "default" else r.sessionID
    message := if r.message = "" then "Hello" else r.message }

/-! ## Concrete inputs used by the theorems below -/

/-- A filesystem holding a secret in `/home/u/proj2`, a sibling of the
project root `/home/u/proj`. -/
def fsSibling : FS := ⟨[("/home/u/proj2/secret", 6, "secret")], []⟩

/-- A filesystem whose project file is 1000001 bytes — under 1 MiB but
over the source's 1000000-byte cap. -/
def fsBig : FS := ⟨[("/home/u/proj/big.txt", 1000001, "")], []⟩

/-- A filesystem with a small readable project file. -/
def fsSmall : FS := ⟨[("/home/u/proj/notes.txt", 2, "hi")], []⟩

/-- Usage of exactly one million prompt and one million candidate
tokens. -/
def usageMillion : Usage := ⟨1000000, 1000000⟩

/-- The price table with its first two entries swapped: another possible
Go map iteration order of the same table. -/
def modelCostsSwapped : List (String × ℚ × ℚ) :=
  [("gemini-1.5-flash-8b", mkRat 375 10000, mkRat 15 100),
   ("gemini-1.5-flash", mkRat 75 1000, mkRat 30 100),
   ("gemini-1.5-pro", mkRat 125 100, 5),
   ("gemini-2.0-flash", mkRat 10 100, mkRat 40 100),
   ("gemini-2.0-flash-exp", 0, 0),
   ("gemini-2.0-flash-lite-preview-02-05", mkRat 75 1000, mkRat 30 100),
   ("gemini-exp-1206", 0, 0),
   ("gemini-2.0-pro-exp-02-05", 0, 0)]

/-- A terminal model response with no function calls, no text and no
images. -/
def emptyTextResp : GResp := ⟨true, [], "", 0⟩

/-- A script whose every upstream reply is `emptyTextResp`. -/
def emptyTextScript : Nat → Except String GResp := fun _ => .ok emptyTextResp

/-! ## Theorems -/

/-- C2: the cache eligibility decision is a pure total function — for
every combination of override, active cache, flags and model family it
returns exactly one of attach (`some`) or omit (`none`) — and a cache
reference is never attached to the upstream call when the search flag or
the agentic flag is true. -/
theorem c2_policy_total_and_tools_exclude_cache
    (reqCacheID reqModel cacheNm cacheMdl : String) (useSearch useAgentic : Bool) :
    (attachedCache reqCacheID reqModel cacheNm cacheMdl useSearch useAgentic = none ∨
      ∃ c, attachedCache reqCacheID reqModel cacheNm cacheMdl useSearch useAgentic = some c) ∧
    (useSearch = true ∨ useAgentic = true →
      attachedCache reqCacheID reqModel cacheNm cacheMdl useSearch useAgentic = none) := by
  constructor
  · cases h : attachedCache reqCacheID reqModel cacheNm cacheMdl useSearch useAgentic with
    | none => exact Or.inl rfl
    | some c => exact Or.inr ⟨c, rfl⟩
  · intro h
    unfold attachedCache
    rcases h with h | h <;> subst h <;> simp

/-- C2 witness: with the search flag set, no cache is attached even though
an override and an active compatible cache are present. -/
theorem c2_policy_witness :
    attachedCache "caches/abc" "gemini-2.0-flash" "caches/srv" "gemini-2.0-flash"
      true false = none :=
  (c2_policy_total_and_tools_exclude_cache "caches/abc" "gemini-2.0-flash"
    "caches/srv" "gemini-2.0-flash" true false).2 (Or.inl rfl)

/-- C3 counterexample: the explicit cache override is set (`"caches/abc"`
is nonempty) and the search flag is true, yet nothing is attached to the
upstream call — the override does not take precedence over the
search/agentic exclusion, contradicting "returned unconditionally". -/
theorem c3_override_blocked_by_search_counterexample :
    attachedCache "caches/abc" "gemini-2.0-flash" "" "" true false = none ∧
    ("caches/abc" : String) ≠ "" := by
  refine ⟨?_, by decide⟩
  rfl

/-- C3 amended: when neither the search flag nor the agentic flag is set,
an explicit cache override is attached unconditionally, overriding the
no-active-cache rule and the model-family/image checks; with either flag
set the override (like any cache) is omitted. -/
theorem c3_override_wins_when_no_tools
    (reqCacheID reqModel cacheNm cacheMdl : String) (h : reqCacheID ≠ "") :
    attachedCache reqCacheID reqModel cacheNm cacheMdl false false = some reqCacheID := by
  unfold attachedCache decideActiveCID
  simp [h]

/-- C3 amended witness: the override is attached for an image model of a
different family with no server cache at all. -/
theorem c3_override_wins_witness :
    attachedCache "caches/def" "imagen-image-model" "" "gemini-1.5-pro" false false =
      some "caches/def" :=
  c3_override_wins_when_no_tools "caches/def" "imagen-image-model" "" "gemini-1.5-pro"
    (by decide)

/-- C4 (code-bug evidence): the `handleChat` tool-resolution loop has no
round-trip cap — against an upstream whose every response requests a
function call, the loop is still running after any number of iterations,
for every starting round index and tool count; it never reaches a
terminal state, instead of failing fast at a bound. -/
theorem c4_tool_loop_has_no_cap (fuel k toolCount : Nat) :
    chatLoop pingPongScript fuel pingPongResp k toolCount = none := by
  induction fuel generalizing k toolCount with
  | zero => rfl
  | succ n ih =>
    simp only [chatLoop, pingPongScript, pingPongResp]
    exact ih (k + 1) (toolCount + 1)

/-- C9: `handleChat` replaces an empty message with `"Hello"`, so the
message sent upstream is never empty. -/
theorem c9_empty_message_replaced (r : ChatRequest) :
    (r.message = "" → (normalizeChatRequest r).message = "Hello") ∧
    (normalizeChatRequest r).message ≠ "" := by
  unfold normalizeChatRequest
  constructor
  · intro h
    simp [h]
  · by_cases h : r.message = "" <;> simp [h]

/-- C9 witness: the all-empty wire request is sent upstream as
`"Hello"`. -/
theorem c9_empty_message_witness :
    (normalizeChatRequest ⟨"", "", "", "", false, false⟩).message = "Hello" :=
  (c9_empty_message_replaced ⟨"", "", "", "", false, false⟩).1 rfl

/-- C5 counterexample: in the OpenAI-compatible buffered adapter, a
terminal model response with no function calls and empty text makes the
loop deliver the empty string verbatim as the message content — no
sentinel warning is substituted on this non-error code path, so the
caller receives silently empty content. -/
theorem c5_openai_empty_content_counterexample :
    openAIChatLoop emptyTextScript 1 emptyTextResp 0 = some "" := by
  rfl

/-- C5 amended: in the native `/chat` handler the guarantee holds — a
turn whose trimmed terminal text is empty with no tool executions and no
images is replaced by the distinct sentinel warning, and the finalized
text of every completed turn is nonempty; the OpenAI-compatible adapter,
however, returns the terminal text verbatim and may deliver empty
content. -/
theorem c5_native_finalize_never_empty (t : String) (toolCount images : Nat) :
    (goTrimSpace t = "" → toolCount = 0 → images = 0 →
      finalizeChatText t toolCount images = sentinelEmpty) ∧
    finalizeChatText t toolCount images ≠ "" := by
  constructor
  · intro h1 h2 h3
    subst h2; subst h3
    unfold finalizeChatText
    simp [h1]
  · unfold finalizeChatText
    by_cases hf : goTrimSpace t = ""
    · rcases Nat.eq_zero_or_pos toolCount with htc | htc
      · rcases Nat.eq_zero_or_pos images with him | him
        · subst htc; subst him
          simp only [hf]
          simp [sentinelEmpty, String.ext_iff]
        · subst htc
          simp only [hf, him]
          simp [String.ext_iff, String.data_append, Nat.pos_iff_ne_zero.mp him]
      · simp only [hf, htc]
        simp [String.ext_iff, String.data_append, Nat.pos_iff_ne_zero.mp htc]
    · simp [hf]

/-- C5 amended witness: whitespace-only text with no tools and no images
finalizes to the sentinel warning. -/
theorem c5_native_finalize_witness :
    finalizeChatText "   " 0 0 = sentinelEmpty :=
  (c5_native_finalize_never_empty "   " 0 0).1 (by decide) rfl rfl

/-- C8 counterexample: a blocked experimental id with the `gemini-`
prefix is rejected outright (HTTP 400), not mapped to the configured
cache-bound or default model, so the request does not proceed. -/
theorem c8_blocked_experimental_rejected_counterexample :
    mapOpenAIModel "gemini-2.0-flash-exp" "gemini-1.5-pro" = .rejected ∧
    MappedModel.rejected ≠ .use "gemini-1.5-pro" ∧
    MappedModel.rejected ≠ .use defaultModelID := by
  refine ⟨rfl, by decide, by decide⟩

/-- C8 amended: a `gemini-`-prefixed id that is not on the experimental
blocklist is used verbatim; a `gemini-`-prefixed id on the blocklist is
rejected with an error rather than substituted; only an id without the
`gemini-` prefix is replaced by the cache-bound model (or the default
when none is configured) and proceeds. -/
theorem c8_model_mapping_cases (reqModel cacheMdl : String) :
    (goHasPre reqModel "gemini-" = true → isBlockedExperimental reqModel = false →
      mapOpenAIModel reqModel cacheMdl = .use reqModel) ∧
    (goHasPre reqModel "gemini-" = true → isBlockedExperimental reqModel = true →
      mapOpenAIModel reqModel cacheMdl = .rejected) ∧
    (goHasPre reqModel "gemini-" = false →
      mapOpenAIModel reqModel cacheMdl =
        .use (if cacheMdl = "" then defaultModelID else cacheMdl)) := by
  unfold mapOpenAIModel
  refine ⟨fun h1 h2 => by simp [h1, h2], fun h1 h2 => by simp [h1, h2],
    fun h1 => by simp [h1]⟩

/-- C8 amended witness: a released `gemini-` id passes verbatim, a
blocked experimental one is rejected, and a non-`gemini-` id falls back
to the default model. -/
theorem c8_model_mapping_witness :
    mapOpenAIModel "gemini-2.5-pro" "gemini-1.5-pro" = .use "gemini-2.5-pro" ∧
    mapOpenAIModel "gemini-2.0-pro-exp-02-05" "gemini-1.5-pro" = .rejected ∧
    mapOpenAIModel "gpt-4" "" = .use defaultModelID := by
  refine ⟨(c8_model_mapping_cases "gemini-2.5-pro" "gemini-1.5-pro").1
      (by decide) (by decide),
    (c8_model_mapping_cases "gemini-2.0-pro-exp-02-05" "gemini-1.5-pro").2.1
      (by decide) (by decide),
    ?_⟩
  have h := (c8_model_mapping_cases "gpt-4" "").2.2 (by decide)
  simpa using h

/-- C1 counterexample: the traversal path `../proj2/secret` (which
contains `..`) against root `/home/u/proj` resolves to the sibling
directory path `/home/u/proj2/secret`; the string-prefix check passes, so
`toolReadFile` returns the file content instead of `AccessDenied`, and
the access is outside the root directory (the resolved path does not lie
under `/home/u/proj/`). -/
theorem c1_sibling_escape_counterexample :
    goContains "../proj2/secret" ".." = true ∧
    resolveToolPath "/home/u/proj" "../proj2/secret" = "/home/u/proj2/secret" ∧
    toolReadFile fsSibling "/home/u/proj" "../proj2/secret" = .content "secret" ∧
    goHasPre "/home/u/proj2/secret" "/home/u/proj/" = false := by
  refine ⟨by decide, by decide, by decide, by decide⟩

/-- C1 amended: each of the three tool operations returns `AccessDenied`
exactly when the lexically joined-and-cleaned path does not have the
configured root as a *string* prefix; a path containing traversal
sequences is therefore allowed whenever its resolution keeps that string
prefix — including resolutions inside the root, and escapes to sibling
directories whose absolute path extends the root string. -/
theorem c1_access_denied_iff_outside_string_root
    (fs : FS) (root rel content : String) :
    (toolListFiles fs root rel = .denied ↔
      goHasPre (resolveToolPath root (if rel = "" then "." else rel)) root = false) ∧
    (toolReadFile fs root rel = .denied ↔
      goHasPre (resolveToolPath root rel) root = false) ∧
    ((toolWriteFile fs root rel content).1 = .denied ↔
      goHasPre (resolveToolPath root rel) root = false) := by
  refine ⟨?_, ?_, ?_⟩
  · simp only [toolListFiles]
    cases h : goHasPre (resolveToolPath root (if rel = "" then "." else rel)) root
    · simp [h]
    · simp only [h, Bool.not_true, Bool.false_eq_true, if_false]
      cases hd : fs.findDir (resolveToolPath root (if rel = "" then "." else rel)) <;>
        simp [hd]
  · simp only [toolReadFile]
    cases h : goHasPre (resolveToolPath root rel) root
    · simp [h]
    · simp only [h, Bool.not_true, Bool.false_eq_true, if_false]
      cases hf : fs.findFile (resolveToolPath root rel) with
      | none => cases hd : fs.findDir (resolveToolPath root rel) <;> simp [hf, hd]
      | some fc =>
        simp only [hf]
        split <;> simp
  · simp only [toolWriteFile]
    cases h : goHasPre (resolveToolPath root rel) root <;> simp [h]

/-- C6 counterexample: an in-root file of 1000001 bytes is at most 1 MiB
(1048576 bytes), yet `toolReadFile` rejects it as too large — the cap is
1000000 bytes, not 1 MiB. -/
theorem c6_mib_cap_counterexample :
    toolReadFile fsBig "/home/u/proj" "big.txt" = .tooLarge ∧
    (1000001 : Nat) ≤ 1048576 := by
  refine ⟨by decide, by decide⟩

/-- C6 amended: for an in-root file, `toolReadFile` returns the content
exactly when the stat size is at most 1000000 bytes (10^6, not 1 MiB) and
fails with the too-large error exactly when the size exceeds 1000000. -/
theorem c6_read_cap_is_million_bytes (fs : FS) (root rel c : String) (sz : Nat)
    (hin : goHasPre (resolveToolPath root rel) root = true)
    (hf : FS.findFile fs (resolveToolPath root rel) = some (sz, c)) :
    (sz ≤ 1000000 → toolReadFile fs root rel = .content c) ∧
    (1000000 < sz → toolReadFile fs root rel = .tooLarge) := by
  constructor
  · intro hle
    simp [toolReadFile, hin, hf, Nat.not_lt.mpr hle]
  · intro hgt
    simp [toolReadFile, hin, hf, hgt]

/-- C6 amended witness: a 2-byte in-root file is read back as its
content. -/
theorem c6_read_cap_witness :
    toolReadFile fsSmall "/home/u/proj" "notes.txt" = .content "hi" :=
  (c6_read_cap_is_million_bytes fsSmall "/home/u/proj" "notes.txt" "hi" 2
    (by decide) (by decide)).1 (by decide)

/-- Helper: a successful rate lookup comes from some table entry whose key
matches the model name by equality or prefix. -/
theorem findRates_mem (order : List (String × ℚ × ℚ)) (m : String) (r : ℚ × ℚ)
    (h : findRates order m = some r) :
    ∃ k, (k, r) ∈ order ∧ (m = k ∨ goHasPre m k = true) := by
  induction order with
  | nil => simp [findRates] at h
  | cons hd tl ih =>
    obtain ⟨k, r2⟩ := hd
    simp only [findRates] at h
    split at h
    next hcond =>
      cases h
      refine ⟨k, List.mem_cons_self _ _, ?_⟩
      simpa using hcond
    next =>
      obtain ⟨k2, hk2, hm⟩ := ih h
      exact ⟨k2, List.mem_cons_of_mem _ hk2, hm⟩

/-- C7 counterexample: under the source-literal enumeration order the
model `gemini-1.5-flash-8b` is billed with the rates of the *shorter*
matching key `gemini-1.5-flash`, not of its exact (longest) key; under
another legal enumeration of the same table (Go map iteration order is
unspecified) the exact key wins, and the two computed costs differ — so
the cost of a model name and usage is not a single determined value and
is not the longest-key match the claim states. -/
theorem c7_cost_not_longest_key_counterexample :
    List.Perm modelCostsSwapped modelCosts ∧
    findRates modelCosts "gemini-1.5-flash-8b" =
      some (mkRat 75 1000, mkRat 30 100) ∧
    findRates modelCostsSwapped "gemini-1.5-flash-8b" =
      some (mkRat 375 10000, mkRat 15 100) ∧
    calculateCost modelCosts "gemini-1.5-flash-8b" (some usageMillion) ≠
      calculateCost modelCostsSwapped "gemini-1.5-flash-8b" (some usageMillion) := by
  have h1 : findRates modelCosts "gemini-1.5-flash-8b" =
      some (mkRat 75 1000, mkRat 30 100) := by decide
  have h2 : findRates modelCostsSwapped "gemini-1.5-flash-8b" =
      some (mkRat 375 10000, mkRat 15 100) := by decide
  refine ⟨?_, h1, h2, ?_⟩
  · unfold modelCostsSwapped modelCosts
    exact List.Perm.swap _ _ _
  · simp only [calculateCost, h1, h2]
    rw [if_neg (by decide), if_neg (by decide)]
    simp only [usageCost, usageMillion, Rat.mkRat_eq_divInt, Rat.divInt_eq_div]
    norm_num

/-- C7 amended: cost lookup is a first-match by equality-or-prefix over
the price table in an unspecified enumeration order; for every order the
computed cost is either zero or the usage-cost under the rates of *some*
matching table key — not necessarily the longest — so the value is
determined only once the enumeration order is fixed. -/
theorem c7_cost_from_some_matching_key (order : List (String × ℚ × ℚ))
    (modelName : String) (usage : Option Usage) :
    calculateCost order modelName usage = 0 ∨
    ∃ k r, (k, r) ∈ order ∧ (modelName = k ∨ goHasPre modelName k = true) ∧
      calculateCost order modelName usage = usageCost r usage := by
  cases h : findRates order modelName with
  | none => exact Or.inl (by simp [calculateCost, h])
  | some r =>
    by_cases hz : r.1 = 0 ∧ r.2 = 0
    · exact Or.inl (by simp [calculateCost, h, hz])
    · obtain ⟨k, hk, hm⟩ := findRates_mem order modelName r h
      exact Or.inr ⟨k, r, hk, hm, by simp [calculateCost, h, hz]⟩

/-- C10 counterexample: `gemini-2.0-flash-exp` is a free model (its table
entry has both rates zero), yet under the source-literal enumeration
order the paid prefix key `gemini-2.0-flash` matches first and the
computed cost is nonzero — a free model can contribute to the running
cost total. -/
theorem c10_free_model_charged_counterexample :
    ("gemini-2.0-flash-exp", (0 : ℚ), (0 : ℚ)) ∈ modelCosts ∧
    calculateCost modelCosts "gemini-2.0-flash-exp" (some usageMillion) ≠ 0 := by
  refine ⟨by decide, ?_⟩
  have h1 : findRates modelCosts "gemini-2.0-flash-exp" =
      some (mkRat 10 100, mkRat 40 100) := by decide
  simp only [calculateCost, h1]
  rw [if_neg (by decide)]
  simp only [usageCost, usageMillion, Rat.mkRat_eq_divInt, Rat.divInt_eq_div]
  norm_num

/-- C10 amended: `calculateCost` returns exactly 0 when no table key
matches by equality or prefix, when the first-matched entry of the
enumeration has both rates zero, and when the response carries no usage
metadata; but because lookup is first-match rather than exact or longest,
a free model whose id extends a paid key may still be charged under
orders that reach the paid key first. -/
theorem c10_zero_cost_cases (order : List (String × ℚ × ℚ)) (m : String)
    (usage : Option Usage) (r : ℚ × ℚ) :
    (findRates order m = none → calculateCost order m usage = 0) ∧
    (findRates order m = some r → r.1 = 0 → r.2 = 0 →
      calculateCost order m usage = 0) ∧
    calculateCost order m none = 0 := by
  refine ⟨fun h => by simp [calculateCost, h],
    fun h h1 h2 => by simp [calculateCost, h, h1, h2], ?_⟩
  cases h : findRates order m with
  | none => simp [calculateCost, h]
  | some r2 =>
    by_cases hz : r2.1 = 0 ∧ r2.2 = 0 <;> simp [calculateCost, h, hz, usageCost]

/-- C10 amended witness: an unknown model and a free model with no
earlier matching paid key both cost zero. -/
theorem c10_zero_cost_witness :
    calculateCost modelCosts "claude-3-opus" (some usageMillion) = 0 ∧
    calculateCost modelCosts "gemini-exp-1206" (some usageMillion) = 0 :=
  ⟨(c10_zero_cost_cases modelCosts "claude-3-opus" (some usageMillion)
      (0, 0)).1 (by decide),
   (c10_zero_cost_cases modelCosts "gemini-exp-1206" (some usageMillion)
      (0, 0)).2.1 (by decide) rfl rfl⟩
